import Mathlib

/-!
Shallow embedding of the monitoring/action engine of the `dashboard`
repository (src/dashboard/system.py, src/dashboard/mixins.py).

External effects (subprocess runs, HTTP requests, SSH channels, UDP
sockets, UI notifications) are modelled by passing their observable
outcome in as an explicit argument, or by returning the messages that
would be sent.  Python exceptions are modelled with `Except String`.
Python `bytes` values are modelled as `List Nat` (one entry per byte),
strings as Lean `String` / `List Char` (the repository only handles
ASCII data in the modelled paths).
-/

namespace Dashboard

/-- From `system.py`: `class SystemState(Enum): OK = 0; FAILED = 1; UNKNOWN = 2`. -/
inductive SystemState where
  | OK
  | FAILED
  | UNKNOWN
deriving DecidableEq, Repr

/-- The mutable fields of `class System` (`system.py`).  `last_update`
(`time.time()`) is modelled as an abstract Nat timestamp. -/
structure System where
  name : String
  description : String
  state : SystemState
  state_verbose : String
  last_update : Nat
deriving DecidableEq, Repr

/-- `System.__init__`: state starts as UNKNOWN with empty verbose text. -/
def System.init (name description : String) : System :=
  { name := name, description := description,
    state := SystemState.UNKNOWN, state_verbose := "", last_update := 0 }

/-- Base `System.update_state` ("to be overridden"): sets UNKNOWN and "". -/
def System.update_state (s : System) : System :=
  { s with state := SystemState.UNKNOWN, state_verbose := "" }

/-- Characters stripped by the Python calls `.strip("\n\r ")` in
`PingableSystem.update_state`. -/
def isStripChar (c : Char) : Bool :=
  c = '\n' || c = '\r' || c = ' '

/-- Python `str.strip("\n\r ")`: remove leading and trailing characters
drawn from the set `\n`, `\r`, space. -/
def pyStrip (s : String) : String :=
  ⟨((s.toList.dropWhile isStripChar).reverse.dropWhile isStripChar).reverse⟩

/-! ### The compiled regex `ping_time_regex`

`system.py` line 152: `re.compile(r".*ttl=\d+ time=((?:\d+\.)?\d+ ms).*")`,
used as `ping_time_regex.findall(stdout)`.

Since `.` does not match `\n`, every match of this pattern lies inside a
single line; the leading greedy `.*` makes the (single) match of a line
capture the last occurrence of the core `ttl=\d+ time=((?:\d+\.)?\d+ ms)`
in that line, and the trailing greedy `.*` consumes the rest of the line,
so `findall` yields at most one group per line.  `\d` is modelled as an
ASCII digit (ping output is ASCII). -/

/-- Match the group `((?:\d+\.)?\d+ ms)` at the head of `cs`:
an optional digits-then-dot, then digits, then literal " ms".
Returns the captured characters.  Backtracking of the Python engine is
resolved statically: the runs of digits are maximal, and if the optional
part consumed "digits." but the remainder fails, the fallback
(optional part empty) necessarily fails as well because the character
after the first digit run is '.', not ' '. -/
def matchGroup (cs : List Char) : Option (List Char) :=
  let sp1 := cs.span Char.isDigit
  match sp1.1, sp1.2 with
  | [], _ => none
  | d1@(_ :: _), '.' :: r2 =>
    let sp2 := r2.span Char.isDigit
    match sp2.1, sp2.2 with
    | [], _ => none
    | d2@(_ :: _), ' ' :: 'm' :: 's' :: _ => some (d1 ++ '.' :: d2 ++ [' ', 'm', 's'])
    | _ :: _, _ => none
  | d1@(_ :: _), ' ' :: 'm' :: 's' :: _ => some (d1 ++ [' ', 'm', 's'])
  | _ :: _, _ => none

/-- Match the core `ttl=\d+ time=((?:\d+\.)?\d+ ms)` at the head of `cs`,
returning the captured group. -/
def matchCore (cs : List Char) : Option (List Char) :=
  match cs with
  | 't' :: 't' :: 'l' :: '=' :: rest =>
    let sp := rest.span Char.isDigit
    match sp.1, sp.2 with
    | [], _ => none
    | _ :: _, ' ' :: 't' :: 'i' :: 'm' :: 'e' :: '=' :: rest2 => matchGroup rest2
    | _ :: _, _ => none
  | _ => none

/-- Group captured by the regex on one line: the core occurrence at the
last possible start position (the leading `.*` is greedy). -/
def lastMatch : List Char → Option (List Char)
  | [] => none
  | c :: rest =>
    match lastMatch rest with
    | some g => some g
    | none => matchCore (c :: rest)

/-- Python `str.split("\n")` semantics over char lists. -/
def splitLines : List Char → List (List Char)
  | [] => [[]]
  | '\n' :: rest => [] :: splitLines rest
  | c :: rest =>
    match splitLines rest with
    | l :: ls => (c :: l) :: ls
    | [] => [[c]]

/-- `ping_time_regex.findall(s)`: one captured group per line that
contains the core pattern (see the discussion above). -/
def ping_time_findall (s : String) : List String :=
  (splitLines s.toList).filterMap (fun line => (lastMatch line).map (fun g => (⟨g⟩ : String)))

/-! ### PingableMixin.ping and PingableSystem.update_state -/

/-- Observable outcome of `subprocess.run(["ping", p, '1', host], ...)`:
either the invocation raised (e.g. `FileNotFoundError` when the `ping`
binary is missing) or a completed process with return code and decoded
stdout/stderr. -/
structure CompletedProcess where
  returncode : Int
  stdout : String
  stderr : String
deriving DecidableEq, Repr

/-- `PingableMixin.ping` (`system.py` lines 83-94, identically
`mixins.py`): runs the ping subprocess and returns
`(returncode == 0, stdout, stderr)`.  There is no try/except in `ping`,
so an exception raised by `subprocess.run` propagates to the caller;
this is modelled by the `.error` branch passing through. -/
def PingableMixin.ping (run_result : Except String CompletedProcess) :
    Except String (Bool × String × String) :=
  match run_result with
  | .error e => .error e
  | .ok s => .ok (s.returncode == 0, s.stdout, s.stderr)

/-- Body of the `try:` block of `PingableSystem.update_state`
(`system.py` lines 160-172).  `ping_result` is the value of
`self.ping()` or the exception it raised. -/
def PingableSystem.update_state_body
    (ping_result : Except String (Bool × String × String)) (s : System) :
    Except String System :=
  match ping_result with
  | .error e => .error e
  | .ok (ok, stdout, stderr) =>
    if ok then
      .ok { s with
            state := SystemState.OK,
            state_verbose :=
              match ping_time_findall stdout with
              | g :: _ => "Ping: " ++ g
              | [] => pyStrip stdout }
    else
      .ok { s with
            state := SystemState.FAILED,
            state_verbose := pyStrip (stdout ++ "\n" ++ stderr) }

/-- `PingableSystem.update_state` (`system.py` lines 160-175): the body
wrapped by `except Exception as e: state = UNKNOWN;
state_verbose = f"Exception: {str(e)}"`. -/
def PingableSystem.update_state
    (ping_result : Except String (Bool × String × String)) (s : System) : System :=
  match PingableSystem.update_state_body ping_result s with
  | .ok s2 => s2
  | .error e =>
    { s with state := SystemState.UNKNOWN, state_verbose := "Exception: " ++ e }

/-- `System._update_state` as inherited by `PingableSystem`: run
`update_state`, then set `last_update = time.time()` (modelled as `now`). -/
def PingableSystem.full_update_state
    (ping_result : Except String (Bool × String × String)) (now : Nat) (s : System) : System :=
  { PingableSystem.update_state ping_result s with last_update := now }

/-! ### HTTPServer.update_state -/

/-- Observable outcome of `requests.head(self.url, timeout=1.0, verify=...)`:
a response (status code and final resolved URL `r.url`), a raised
`requests.ConnectionError`, or any other raised exception.  The
distinction mirrors the ordered `except` clauses of the source. -/
inductive HttpOutcome where
  | response (status_code : Nat) (url : String)
  | connectionError (msg : String)
  | otherException (msg : String)
deriving DecidableEq, Repr

/-- `HTTPServer.update_state` (`system.py` lines 272-285). -/
def HTTPServer.update_state (outcome : HttpOutcome) (expected_status : Nat)
    (s : System) : System :=
  match outcome with
  | .response code url =>
    { s with
      state := if code = expected_status then SystemState.OK else SystemState.FAILED,
      state_verbose := "Status " ++ toString code ++ " " ++ url }
  | .connectionError e =>
    { s with state := SystemState.FAILED, state_verbose := "Connection failed: " ++ e }
  | .otherException e =>
    { s with state := SystemState.UNKNOWN, state_verbose := "Exception: " ++ e }

/-- `System._update_state` as inherited by `HTTPServer`. -/
def HTTPServer.full_update_state (outcome : HttpOutcome) (expected_status : Nat)
    (now : Nat) (s : System) : System :=
  { HTTPServer.update_state outcome expected_status s with last_update := now }

/-! ### Actions and get_actions

An `Action` holds a display name and a bound callable.  The two kinds of
callables attached by the source classes are `self.wakeonlan` (no extra
arguments) and `self.ssh_exec` with bound arguments `(name, cmd)`. -/

/-- The bound callable of an `Action` as constructed in `system.py`. -/
inductive ActionCallback where
  | wakeonlan
  | ssh_exec (action_name : String) (cmd : String)
deriving DecidableEq, Repr

/-- `class Action`: display name plus the bound callable. -/
structure Action where
  name : String
  callback : ActionCallback
deriving DecidableEq, Repr

/-- Base `System.get_actions`: returns `[]`. -/
def System.get_actions : List Action := []

/-- `PingableWOLSystem.get_actions` (`system.py` lines 189-193):
start empty, append the Wake On LAN action if state is not OK. -/
def PingableWOLSystem.get_actions (state : SystemState) : List Action :=
  let actions := System.get_actions
  if state ≠ SystemState.OK then actions ++ [⟨"Wake On LAN", ActionCallback.wakeonlan⟩]
  else actions

/-- `SSHMixin.actions_from_ssh_commands` (`system.py` lines 145-146):
one Action per configured `(action name, command)` pair, in dict
(insertion) order; `ssh_commands` is modelled as an association list. -/
def SSHMixin.actions_from_ssh_commands (ssh_commands : List (String × String)) : List Action :=
  ssh_commands.map (fun nc => ⟨nc.1, ActionCallback.ssh_exec nc.1 nc.2⟩)

/-- `SSHControllablePingableSystem.get_actions` (`system.py` lines
218-222): `super().get_actions()` resolves to base `System.get_actions`
(no other class on the MRO defines it); the SSH actions are appended
unless state is FAILED. -/
def SSHControllablePingableSystem.get_actions (state : SystemState)
    (ssh_commands : List (String × String)) : List Action :=
  let actions := System.get_actions
  if ¬ (state = SystemState.FAILED) then actions ++ SSHMixin.actions_from_ssh_commands ssh_commands
  else actions

/-- `SSHControllablePingableWOLSystem.get_actions` (`system.py` lines
250-254): `super().get_actions()` resolves to
`SSHControllablePingableSystem.get_actions`; the Wake On LAN action is
appended if state is not OK. -/
def SSHControllablePingableWOLSystem.get_actions (state : SystemState)
    (ssh_commands : List (String × String)) : List Action :=
  let actions := SSHControllablePingableSystem.get_actions state ssh_commands
  if state ≠ SystemState.OK then actions ++ [⟨"Wake On LAN", ActionCallback.wakeonlan⟩]
  else actions

/-! ### WakeOnLanMixin.wakeonlan and bytes.fromhex -/

/-- Hexadecimal value of a character, as accepted by `bytes.fromhex`
(0-9, a-f, A-F). -/
def hexVal (c : Char) : Option Nat :=
  if '0' ≤ c ∧ c ≤ '9' then some (c.toNat - '0'.toNat)
  else if 'a' ≤ c ∧ c ≤ 'f' then some (c.toNat - 'a'.toNat + 10)
  else if 'A' ≤ c ∧ c ≤ 'F' then some (c.toNat - 'A'.toNat + 10)
  else none

/-- ASCII whitespace, skipped between bytes by `bytes.fromhex`
(CPython 3.11+ skips all ASCII whitespace; earlier versions only
spaces — the difference is irrelevant for the inputs handled here). -/
def isPyWhitespace (c : Char) : Bool :=
  c = ' ' || c = '\t' || c = '\n' || c = '\r' || c = '\x0b' || c = '\x0c'

/-- `bytes.fromhex`: whitespace may separate bytes; each byte is two
adjacent hex digits; anything else (including an odd trailing digit)
raises ValueError. -/
def fromhexCore : List Char → Except String (List Nat)
  | [] => .ok []
  | c :: rest =>
    if isPyWhitespace c then fromhexCore rest
    else
      match hexVal c with
      | none => .error "ValueError: non-hexadecimal number found in fromhex() arg"
      | some hi =>
        match rest with
        | [] => .error "ValueError: non-hexadecimal number found in fromhex() arg"
        | d :: rest2 =>
          match hexVal d with
          | none => .error "ValueError: non-hexadecimal number found in fromhex() arg"
          | some lo => (fromhexCore rest2).map (fun bs => (hi * 16 + lo) :: bs)

/-- Python `str.lower()` restricted to ASCII (the only characters that
occur in hardware addresses). -/
def pyLower (c : Char) : Char :=
  if 'A' ≤ c ∧ c ≤ 'Z' then Char.ofNat (c.toNat + 32) else c

/-- The address preprocessing of `wakeonlan`:
`self.host_mac.replace(':', '').replace('-', '').lower()`. -/
def strippedMac (host_mac : String) : List Char :=
  (((host_mac.toList.filter (fun c => c != ':')).filter (fun c => c != '-')).map pyLower)

/-- `magic_packet = (b'\xff' * 6) + (host_mac_bin * 16)`. -/
def magicPacket (host_mac_bin : List Nat) : List Nat :=
  List.replicate 6 0xff ++ (List.replicate 16 host_mac_bin).flatten

/-- One `s.sendto(...)` call: payload, destination address and port. -/
structure Datagram where
  payload : List Nat
  addr : String
  port : Nat
deriving DecidableEq, Repr

/-- `WakeOnLanMixin.wakeonlan` (`system.py` lines 99-112, identically
`mixins.py`): decode the hardware address with `bytes.fromhex`; on
success build the magic packet and send it over a broadcast UDP socket
to 255.255.255.255 on ports 7 and 9 (the returned list is the sequence
of `sendto` calls).  A ValueError from `bytes.fromhex` is raised before
the socket is opened, so no datagram is sent; this is the `.error`
branch.  (The two leading `assert hasattr` checks always pass for the
classes in the source, which set both attributes in `__init__`.) -/
def WakeOnLanMixin.wakeonlan (host_mac : String) : Except String (List Datagram) :=
  match fromhexCore (strippedMac host_mac) with
  | .error e => .error e
  | .ok host_mac_bin =>
    .ok ([7, 9].map (fun port =>
      { payload := magicPacket host_mac_bin, addr := "255.255.255.255", port := port }))

/-- Datagrams actually sent by a `wakeonlan` call: none when the
address decoding raised. -/
def sentDatagrams (r : Except String (List Datagram)) : List Datagram :=
  match r with
  | .ok ds => ds
  | .error _ => []

/-! ### SSHMixin.ssh_exec and Action.__call__ -/

/-- Value of the Python variable `last_output_chunk` in `ssh_exec`:
initialised to the *str* `""`, then overwritten by the *bytes* chunks
returned by `chan.recv(1024)` inside the wait loop. -/
inductive StrOrBytes where
  | str (s : String)
  | bytes (b : String)
deriving DecidableEq, Repr

/-- `.decode()` on that variable: defined on bytes, but an
AttributeError on str (modelled with a brace- and quote-free message). -/
def pyDecode : StrOrBytes → Except String String
  | .str _ => .error "AttributeError: str object has no attribute decode"
  | .bytes b => .ok b

/-- `SSHMixin.ssh_exec` (`system.py` lines 128-143) after a successful
connection: `chunks` is the sequence of `chan.recv(1024)` results
obtained while `exit_status_ready()` was false (possibly empty when the
command finished before the first poll), `exit_status` the command's
exit status.  On non-zero exit the source evaluates
`f"Exit status is {chan.exit_status}, last stdout: {last_output_chunk.decode()}"`
and raises it; evaluating `.decode()` itself raises when no chunk was
ever received. -/
def SSHMixin.ssh_exec (chunks : List String) (exit_status : Nat) : Except String Unit :=
  let last_output_chunk := chunks.foldl (fun _ c => StrOrBytes.bytes c) (StrOrBytes.str "")
  if exit_status ≠ 0 then
    match pyDecode last_output_chunk with
    | .ok d => .error ("Exit status is " ++ toString exit_status ++ ", last stdout: " ++ d)
    | .error e => .error e
  else .ok ()

/-- Notifications emitted through `ui.notify`.  `persistent` reflects
`timeout=0` (the warning never expires). -/
inductive Notification where
  | positive (msg : String)
  | warning (msg : String) (persistent : Bool)
deriving DecidableEq, Repr

/-- `Action.__call__` (`system.py` lines 37-43): run the bound callable;
on success notify positively, on exception emit a persistent warning
with the exception text and re-raise.  Returns the notifications
emitted and the call's own outcome.  (The single quotes the source
places around the action name in the success message are elided in the
modelled message text.) -/
def Action.call (result : Except String Unit) (name : String) :
    List Notification × Except String Unit :=
  match result with
  | .ok _ => ([Notification.positive ("Action " ++ name ++ " finished.")], .ok ())
  | .error e => ([Notification.warning ("Exception: " ++ e) true], .error e)

/-! ### Timeout arguments of the network calls (C10)

These record, verbatim from the source, which timeout each external
call carries.  `none` means the corresponding keyword argument is not
passed at all. -/

/-- The argument list and `timeout=` keyword of the
`subprocess.run(["ping", p, '1', self.host], stdout=..., stderr=..., env=...)`
call in `ping` — no `timeout=` keyword is passed, and the ping command
line contains no deadline flag. -/
structure SubprocessRunCall where
  argv : List String
  timeout : Option ℚ
deriving DecidableEq, Repr

/-- The `subprocess.run` call of `PingableMixin.ping`; `is_windows`
selects between the `-n` and `-c` count flags. -/
def ping_run_call (is_windows : Bool) (host : String) : SubprocessRunCall :=
  { argv := ["ping", if is_windows then "-n" else "-c", "1", host], timeout := none }

/-- `requests.head(self.url, timeout=1.0, verify=...)`: the HTTP HEAD
request carries a 1.0 second timeout. -/
def http_head_timeout : ℚ := 1

/-- `client.connect(self.host, port=..., username=..., key_filename=...,
passphrase=...)` in `ssh_exec`: no `timeout=` keyword is passed. -/
def ssh_connect_timeout : Option ℚ := none

/-! ### Claim-side description of well-formed hardware addresses (C6) -/

/-- A separated hardware address as described by the claim: octet
strings joined by a single separator character, e.g.
`macOfOctets ':' [['A','A'], ['B','B'], ...]` is `AA:BB:...`. -/
def macOfOctets (sep : Char) : List (List Char) → List Char
  | [] => []
  | [o] => o
  | o :: rest => o ++ sep :: macOfOctets sep rest

/-- Byte value of one two-hex-digit block. -/
def blockVal : List Char → Nat
  | [a, b] => (hexVal a).getD 0 * 16 + (hexVal b).getD 0
  | _ => 0

/-- Byte value of one octet of the configured hardware address,
case-insensitively (the source lowercases before decoding). -/
def octetVal (o : List Char) : Nat := blockVal (o.map pyLower)

/-! ## Theorems -/

/-- Every `SystemState` value is one of the three enum constructors. -/
theorem SystemState.one_of_three (st : SystemState) :
    st = SystemState.OK ∨ st = SystemState.FAILED ∨ st = SystemState.UNKNOWN := by
  cases st <;> simp

/-- C1: For every core System variant (base `System`, `PingableSystem`,
`HTTPServer`), the refresh operation (`update_state`, and `_update_state`
which additionally stamps `last_update`) is a total function of the
probe outcome — raised-probe-exception inputs are absorbed into the
UNKNOWN branch rather than escaping — and afterwards `state` is exactly
one of OK, FAILED, UNKNOWN; `state_verbose` is a `String` field of the
result by construction. -/
theorem C1_update_state_total_and_valid :
    ∀ (s : System) (pr : Except String (Bool × String × String))
      (ho : HttpOutcome) (exp now : Nat) (e : String),
      ((System.update_state s).state = SystemState.OK ∨
        (System.update_state s).state = SystemState.FAILED ∨
        (System.update_state s).state = SystemState.UNKNOWN) ∧
      ((PingableSystem.update_state pr s).state = SystemState.OK ∨
        (PingableSystem.update_state pr s).state = SystemState.FAILED ∨
        (PingableSystem.update_state pr s).state = SystemState.UNKNOWN) ∧
      ((HTTPServer.update_state ho exp s).state = SystemState.OK ∨
        (HTTPServer.update_state ho exp s).state = SystemState.FAILED ∨
        (HTTPServer.update_state ho exp s).state = SystemState.UNKNOWN) ∧
      (PingableSystem.update_state (Except.error e) s).state = SystemState.UNKNOWN ∧
      (PingableSystem.full_update_state pr now s).state
        = (PingableSystem.update_state pr s).state ∧
      (HTTPServer.full_update_state ho exp now s).state
        = (HTTPServer.update_state ho exp s).state := by
  intro s pr ho exp now e
  exact ⟨SystemState.one_of_three _, SystemState.one_of_three _,
    SystemState.one_of_three _, rfl, rfl, rfl⟩

/-- C2: `PingableSystem.update_state` on a successful ping sets state OK
and `state_verbose` to "Ping: " followed by the captured round-trip
time when the stdout matches `ping_time_regex` (first captured group),
otherwise to the raw stdout stripped of `\n\r` and spaces; on a failed
ping it sets state FAILED and `state_verbose` to stdout and stderr
joined by a newline, stripped the same way. -/
theorem C2_pingable_update_state_spec :
    ∀ (s : System) (stdout stderr : String),
      (PingableSystem.update_state (Except.ok (true, stdout, stderr)) s).state
        = SystemState.OK ∧
      (∀ g gs, ping_time_findall stdout = g :: gs →
        (PingableSystem.update_state (Except.ok (true, stdout, stderr)) s).state_verbose
          = "Ping: " ++ g) ∧
      (ping_time_findall stdout = [] →
        (PingableSystem.update_state (Except.ok (true, stdout, stderr)) s).state_verbose
          = pyStrip stdout) ∧
      (PingableSystem.update_state (Except.ok (false, stdout, stderr)) s).state
        = SystemState.FAILED ∧
      (PingableSystem.update_state (Except.ok (false, stdout, stderr)) s).state_verbose
        = pyStrip (stdout ++ "\n" ++ stderr) := by
  intro s stdout stderr
  refine ⟨rfl, ?_, ?_, rfl, rfl⟩
  · intro g gs h
    simp [PingableSystem.update_state, PingableSystem.update_state_body, h]
  · intro h
    simp [PingableSystem.update_state, PingableSystem.update_state_body, h]

/-- C2 witness: a realistic echo-reply stdout containing
`ttl=64 time=12.3 ms` yields `state_verbose = "Ping: 12.3 ms"`, and a
non-matching stdout falls back to the trimmed raw text. -/
theorem C2_pingable_update_state_spec_witness :
    (PingableSystem.update_state
      (Except.ok (true, "64 bytes from 192.0.2.1: icmp_seq=1 ttl=64 time=12.3 ms\n", ""))
      (System.init "srv" "")).state_verbose = "Ping: 12.3 ms" ∧
    (PingableSystem.update_state (Except.ok (true, "pong \n", ""))
      (System.init "srv" "")).state_verbose = "pong" := by
  constructor
  · exact (C2_pingable_update_state_spec (System.init "srv" "")
      "64 bytes from 192.0.2.1: icmp_seq=1 ttl=64 time=12.3 ms\n" "").2.1
      "12.3 ms" [] (by decide)
  · exact ((C2_pingable_update_state_spec (System.init "srv" "")
      "pong \n" "").2.2.1 (by decide)).trans (by decide)

/-- C3: `HTTPServer.update_state` on a returned response sets state OK
exactly when the status code equals the configured expected status and
FAILED otherwise, recording status code and final URL in
`state_verbose`; a `requests.ConnectionError` yields FAILED (not
UNKNOWN), any other exception yields UNKNOWN, each recording the error
text. -/
theorem C3_http_update_state_spec :
    ∀ (s : System) (exp code : Nat) (url e : String),
      ((HTTPServer.update_state (HttpOutcome.response code url) exp s).state
        = if code = exp then SystemState.OK else SystemState.FAILED) ∧
      ((HTTPServer.update_state (HttpOutcome.response code url) exp s).state
        = SystemState.OK ↔ code = exp) ∧
      (HTTPServer.update_state (HttpOutcome.response code url) exp s).state_verbose
        = "Status " ++ toString code ++ " " ++ url ∧
      (HTTPServer.update_state (HttpOutcome.connectionError e) exp s).state
        = SystemState.FAILED ∧
      (HTTPServer.update_state (HttpOutcome.connectionError e) exp s).state_verbose
        = "Connection failed: " ++ e ∧
      (HTTPServer.update_state (HttpOutcome.otherException e) exp s).state
        = SystemState.UNKNOWN ∧
      (HTTPServer.update_state (HttpOutcome.otherException e) exp s).state_verbose
        = "Exception: " ++ e := by
  intro s exp code url e
  refine ⟨rfl, ?_, rfl, rfl, rfl, rfl, rfl⟩
  by_cases h : code = exp <;> simp [HTTPServer.update_state, h]

/-- C4 counterexample: a system with wake and remote-command
capabilities whose state is OK exposes the configured remote-command
action — not zero actions as the claim states. -/
theorem C4_ok_actions_counterexample :
    SSHControllablePingableWOLSystem.get_actions SystemState.OK [("Restart", "reboot")]
        = [⟨"Restart", ActionCallback.ssh_exec "Restart" "reboot"⟩] ∧
      SSHControllablePingableWOLSystem.get_actions SystemState.OK [("Restart", "reboot")]
        ≠ [] := by
  decide

/-- C4 amended: for `SSHControllablePingableWOLSystem`, when state is OK
`get_actions` returns exactly the configured remote-command actions
(wake suppressed); when FAILED, only the wake action; when UNKNOWN, the
remote-command actions followed by the wake action. -/
theorem C4_action_visibility_amended :
    ∀ (cmds : List (String × String)),
      SSHControllablePingableWOLSystem.get_actions SystemState.OK cmds
        = SSHMixin.actions_from_ssh_commands cmds ∧
      SSHControllablePingableWOLSystem.get_actions SystemState.FAILED cmds
        = [⟨"Wake On LAN", ActionCallback.wakeonlan⟩] ∧
      SSHControllablePingableWOLSystem.get_actions SystemState.UNKNOWN cmds
        = SSHMixin.actions_from_ssh_commands cmds
            ++ [⟨"Wake On LAN", ActionCallback.wakeonlan⟩] := by
  intro cmds
  refine ⟨?_, ?_, ?_⟩ <;>
    simp [SSHControllablePingableWOLSystem.get_actions,
      SSHControllablePingableSystem.get_actions, System.get_actions]

/-- C5: across the capability-bearing variants, the wake action is in
`get_actions` iff state ≠ OK, and each configured remote-command action
is in `get_actions` iff state ≠ FAILED (so remote commands are offered
while the state is UNKNOWN or OK). -/
theorem C5_action_visibility_iff :
    ∀ (state : SystemState) (cmds : List (String × String)) (n c : String),
      ((⟨"Wake On LAN", ActionCallback.wakeonlan⟩ : Action)
          ∈ PingableWOLSystem.get_actions state ↔ state ≠ SystemState.OK) ∧
      ((⟨"Wake On LAN", ActionCallback.wakeonlan⟩ : Action)
          ∈ SSHControllablePingableWOLSystem.get_actions state cmds
        ↔ state ≠ SystemState.OK) ∧
      ((n, c) ∈ cmds →
        ((⟨n, ActionCallback.ssh_exec n c⟩ : Action)
            ∈ SSHControllablePingableSystem.get_actions state cmds
          ↔ state ≠ SystemState.FAILED)) ∧
      ((n, c) ∈ cmds →
        ((⟨n, ActionCallback.ssh_exec n c⟩ : Action)
            ∈ SSHControllablePingableWOLSystem.get_actions state cmds
          ↔ state ≠ SystemState.FAILED)) := by
  intro state cmds n c
  refine ⟨?_, ?_, ?_, ?_⟩ <;>
    cases state <;>
      simp [PingableWOLSystem.get_actions, SSHControllablePingableWOLSystem.get_actions,
        SSHControllablePingableSystem.get_actions, SSHMixin.actions_from_ssh_commands,
        System.get_actions]

/-- C5 witness: with one configured command and state UNKNOWN both the
remote-command action and the wake action are offered. -/
theorem C5_action_visibility_iff_witness :
    (("Restart", "reboot") ∈ [("Restart", "reboot")]) ∧
    ((⟨"Restart", ActionCallback.ssh_exec "Restart" "reboot"⟩ : Action)
        ∈ SSHControllablePingableWOLSystem.get_actions SystemState.UNKNOWN
            [("Restart", "reboot")]) ∧
    ((⟨"Wake On LAN", ActionCallback.wakeonlan⟩ : Action)
        ∈ PingableWOLSystem.get_actions SystemState.UNKNOWN) := by
  have h := C5_action_visibility_iff SystemState.UNKNOWN [("Restart", "reboot")]
    "Restart" "reboot"
  exact ⟨by decide, (h.2.2.2 (by decide)).mpr (by decide), h.1.mpr (by decide)⟩

/-- A hex digit is not ASCII whitespace. -/
theorem hexVal_isSome_not_ws {c : Char} (h : (hexVal c).isSome) :
    isPyWhitespace c = false := by
  cases hws : isPyWhitespace c
  · rfl
  · exfalso
    simp only [isPyWhitespace, Bool.or_eq_true, decide_eq_true_eq] at hws
    rcases hws with ((((rfl | rfl) | rfl) | rfl) | rfl) | rfl <;> exact absurd h (by decide)

/-- A character whose lowercased form is a hex digit is neither the
colon nor the hyphen separator. -/
theorem hexVal_pyLower_ne_sep {c : Char} (h : (hexVal (pyLower c)).isSome) :
    (c != ':') = true ∧ (c != '-') = true := by
  constructor <;> · rw [bne_iff_ne]; rintro rfl; exact absurd h (by decide)

/-- `bytes.fromhex` on a concatenation of two-hex-digit blocks yields
exactly the block values. -/
theorem fromhexCore_blocks :
    ∀ (blocks : List (List Char)),
      (∀ o ∈ blocks, ∃ a b, o = [a, b] ∧ (hexVal a).isSome ∧ (hexVal b).isSome) →
      fromhexCore blocks.flatten = Except.ok (blocks.map blockVal) := by
  intro blocks
  induction blocks with
  | nil => intro _; rfl
  | cons o rest ih =>
    intro h
    obtain ⟨a, b, rfl, ha, hb⟩ := h o (List.mem_cons_self o rest)
    obtain ⟨va, hva⟩ := Option.isSome_iff_exists.mp ha
    obtain ⟨vb, hvb⟩ := Option.isSome_iff_exists.mp hb
    have hrest := ih (fun o ho => h o (by simp [ho]))
    simp [fromhexCore, hexVal_isSome_not_ws ha, hva, hvb, hrest, blockVal, Except.map]

/-- Filtering the separator characters out of a separated address
recovers the concatenation of the octets. -/
theorem filter_sep_macOfOctets (sep : Char) (hsep : sep = ':' ∨ sep = '-') :
    ∀ (octets : List (List Char)),
      (∀ o ∈ octets, ∀ c ∈ o, (c != ':') = true ∧ (c != '-') = true) →
      ((macOfOctets sep octets).filter (fun c => c != ':')).filter (fun c => c != '-')
        = octets.flatten
  | [], _ => rfl
  | [o], h => by
    have h' := h o (by simp)
    have ho1 : o.filter (fun c => c != ':') = o :=
      List.filter_eq_self.mpr (fun c hc => (h' c hc).1)
    have ho2 : o.filter (fun c => c != '-') = o :=
      List.filter_eq_self.mpr (fun c hc => (h' c hc).2)
    simp [macOfOctets, ho1, ho2]
  | o :: p :: rest, h => by
    have h' := h o (by simp)
    have step := filter_sep_macOfOctets sep hsep (p :: rest)
      (fun q hq c hc => h q (by simp [List.mem_cons.mp hq]) c hc)
    have ho1 : o.filter (fun c => c != ':') = o :=
      List.filter_eq_self.mpr (fun c hc => (h' c hc).1)
    have ho2 : o.filter (fun c => c != '-') = o :=
      List.filter_eq_self.mpr (fun c hc => (h' c hc).2)
    show (((o ++ sep :: macOfOctets sep (p :: rest)).filter
      (fun c => c != ':')).filter (fun c => c != '-')) = o ++ (p :: rest).flatten
    rcases hsep with rfl | rfl <;>
      simp [List.filter_append, List.filter_cons, ho1, ho2, step]

/-- Length of a flattened replicate. -/
theorem length_flatten_replicate (n : Nat) (l : List Nat) :
    (List.replicate n l).flatten.length = n * l.length := by
  induction n with
  | zero => simp
  | succ k ih =>
    simp [List.replicate_succ, ih, Nat.succ_mul, Nat.add_comm]

/-- C6: for every well-formed hardware address of six two-hex-digit
octets (case-insensitive) separated by colons or hyphens, `wakeonlan`
succeeds and sends the same payload — six 0xFF bytes followed by the
six decoded address bytes repeated sixteen times, 102 bytes in total —
over the broadcast socket to 255.255.255.255 on port 7 and on port 9. -/
theorem C6_wakeonlan_magic_packet :
    ∀ (sep : Char) (octets : List (List Char)),
      (sep = ':' ∨ sep = '-') →
      octets.length = 6 →
      (∀ o ∈ octets, o.length = 2 ∧ ∀ c ∈ o, (hexVal (pyLower c)).isSome) →
      WakeOnLanMixin.wakeonlan ⟨macOfOctets sep octets⟩
        = Except.ok
            [⟨magicPacket (octets.map octetVal), "255.255.255.255", 7⟩,
             ⟨magicPacket (octets.map octetVal), "255.255.255.255", 9⟩] ∧
      (octets.map octetVal).length = 6 ∧
      (magicPacket (octets.map octetVal)).length = 102 := by
  intro sep octets hsep hlen hoct
  have hchars : ∀ o ∈ octets, ∀ c ∈ o, (c != ':') = true ∧ (c != '-') = true :=
    fun o ho c hc => hexVal_pyLower_ne_sep ((hoct o ho).2 c hc)
  have hstrip : strippedMac ⟨macOfOctets sep octets⟩
      = (octets.map (List.map pyLower)).flatten := by
    show ((((macOfOctets sep octets).filter (fun c => c != ':')).filter
      (fun c => c != '-')).map pyLower) = _
    rw [filter_sep_macOfOctets sep hsep octets hchars, List.map_flatten]
  have hblocks : ∀ o ∈ octets.map (List.map pyLower),
      ∃ a b, o = [a, b] ∧ (hexVal a).isSome ∧ (hexVal b).isSome := by
    intro o ho
    obtain ⟨q, hq, hqe⟩ := List.mem_map.mp ho
    obtain ⟨a, b, rfl⟩ := List.length_eq_two.mp (hoct q hq).1
    exact ⟨pyLower a, pyLower b, by rw [← hqe]; rfl,
      (hoct _ hq).2 a (by simp), (hoct _ hq).2 b (by simp)⟩
  have hdecode : fromhexCore (strippedMac ⟨macOfOctets sep octets⟩)
      = Except.ok (octets.map octetVal) := by
    rw [hstrip, fromhexCore_blocks _ hblocks, List.map_map]
    rfl
  refine ⟨?_, ?_, ?_⟩
  · simp [WakeOnLanMixin.wakeonlan, hdecode]
  · simp [hlen]
  · simp [magicPacket, length_flatten_replicate, List.length_append, hlen]

/-- C6 witness: the address "AA:BB:CC:DD:EE:FF" yields the 102-byte
magic packet for bytes AA BB CC DD EE FF on ports 7 and 9. -/
theorem C6_wakeonlan_magic_packet_witness :
    WakeOnLanMixin.wakeonlan "AA:BB:CC:DD:EE:FF"
      = Except.ok
          [⟨magicPacket [0xAA, 0xBB, 0xCC, 0xDD, 0xEE, 0xFF], "255.255.255.255", 7⟩,
           ⟨magicPacket [0xAA, 0xBB, 0xCC, 0xDD, 0xEE, 0xFF], "255.255.255.255", 9⟩] ∧
    (magicPacket [0xAA, 0xBB, 0xCC, 0xDD, 0xEE, 0xFF]).length = 102 := by
  have h := C6_wakeonlan_magic_packet ':'
    [['A','A'], ['B','B'], ['C','C'], ['D','D'], ['E','E'], ['F','F']]
    (Or.inl rfl) (by decide) (by decide)
  have hmac : (⟨macOfOctets ':'
      [['A','A'], ['B','B'], ['C','C'], ['D','D'], ['E','E'], ['F','F']]⟩ : String)
      = "AA:BB:CC:DD:EE:FF" := by decide
  have hval : ([['A','A'], ['B','B'], ['C','C'], ['D','D'], ['E','E'], ['F','F']].map octetVal)
      = [0xAA, 0xBB, 0xCC, 0xDD, 0xEE, 0xFF] := by decide
  rw [hmac, hval] at h
  exact ⟨h.1, h.2.2⟩

/-- `bytes.fromhex` raises on any character that is neither a hex digit
nor ASCII whitespace. -/
theorem fromhexCore_error_of_badchar :
    ∀ (l : List Char), (∃ c ∈ l, hexVal c = none ∧ isPyWhitespace c = false) →
      ∃ e, fromhexCore l = Except.error e
  | [], h => by simp at h
  | c :: rest, h => by
    by_cases hws : isPyWhitespace c = true
    · obtain ⟨x, hx, hxnone, hxws⟩ := h
      have hxr : x ∈ rest := by
        rcases List.mem_cons.mp hx with rfl | hr
        · rw [hws] at hxws; cases hxws
        · exact hr
      obtain ⟨e, he⟩ := fromhexCore_error_of_badchar rest ⟨x, hxr, hxnone, hxws⟩
      exact ⟨e, by simp [fromhexCore, hws, he]⟩
    · cases hc : hexVal c with
      | none => exact ⟨"ValueError: non-hexadecimal number found in fromhex() arg", by simp [fromhexCore, hws, hc]⟩
      | some hi =>
        cases rest with
        | nil => exact ⟨"ValueError: non-hexadecimal number found in fromhex() arg", by simp [fromhexCore, hws, hc]⟩
        | cons d rest2 =>
          cases hd : hexVal d with
          | none => exact ⟨"ValueError: non-hexadecimal number found in fromhex() arg", by simp [fromhexCore, hws, hc, hd]⟩
          | some lo =>
            obtain ⟨x, hx, hxnone, hxws⟩ := h
            have hxr : x ∈ rest2 := by
              rcases List.mem_cons.mp hx with rfl | hr
              · rw [hc] at hxnone; cases hxnone
              · rcases List.mem_cons.mp hr with rfl | hr2
                · rw [hd] at hxnone; cases hxnone
                · exact hr2
            obtain ⟨e, he⟩ := fromhexCore_error_of_badchar rest2 ⟨x, hxr, hxnone, hxws⟩
            exact ⟨e, by simp [fromhexCore, hws, hc, hd, he, Except.map]⟩

/-- `bytes.fromhex` raises on a whitespace-free input with an odd
number of characters. -/
theorem fromhexCore_error_of_odd :
    ∀ (l : List Char), (∀ c ∈ l, isPyWhitespace c = false) → l.length % 2 = 1 →
      ∃ e, fromhexCore l = Except.error e
  | [], _, hodd => by simp at hodd
  | c :: rest, hws, hodd => by
    have hwc := hws c (by simp)
    cases hc : hexVal c with
    | none => exact ⟨"ValueError: non-hexadecimal number found in fromhex() arg", by simp [fromhexCore, hwc, hc]⟩
    | some hi =>
      cases rest with
      | nil => exact ⟨"ValueError: non-hexadecimal number found in fromhex() arg", by simp [fromhexCore, hwc, hc]⟩
      | cons d rest2 =>
        cases hd : hexVal d with
        | none => exact ⟨"ValueError: non-hexadecimal number found in fromhex() arg", by simp [fromhexCore, hwc, hc, hd]⟩
        | some lo =>
          have hodd2 : rest2.length % 2 = 1 := by
            simp only [List.length_cons] at hodd
            omega
          obtain ⟨e, he⟩ := fromhexCore_error_of_odd rest2
            (fun x hx => hws x (by simp [hx])) hodd2
          exact ⟨e, by simp [fromhexCore, hwc, hc, hd, he, Except.map]⟩

/-- C7 counterexample: the wrong-length (two-octet) hardware address
"AA:BB" is *not* rejected — `wakeonlan` decodes it and sends a 38-byte
datagram to the broadcast address on ports 7 and 9, so the wake action
performs network I/O on a malformed (wrong length) input. -/
theorem C7_wrong_length_counterexample :
    (sentDatagrams (WakeOnLanMixin.wakeonlan "AA:BB")).map
        (fun d => (d.addr, d.port, d.payload.length))
      = [("255.255.255.255", 7, 38), ("255.255.255.255", 9, 38)] := by
  decide

/-- C7 amended: `wakeonlan` fails with a ValueError before any socket
is opened (no datagram is sent) on every input whose stripped,
lowercased form contains a character that is neither a hex digit nor
ASCII whitespace, and on every whitespace-free stripped input with an
odd number of characters; a wrong-length input consisting of an even
number of hex digits is not rejected. -/
theorem C7_malformed_rejected_amended :
    ∀ (host_mac : String),
      ((∃ c ∈ strippedMac host_mac, hexVal c = none ∧ isPyWhitespace c = false) ∨
        ((∀ c ∈ strippedMac host_mac, isPyWhitespace c = false) ∧
          (strippedMac host_mac).length % 2 = 1)) →
      sentDatagrams (WakeOnLanMixin.wakeonlan host_mac) = [] ∧
      ∃ e, WakeOnLanMixin.wakeonlan host_mac = Except.error e := by
  intro host_mac h
  obtain ⟨e, he⟩ : ∃ e, fromhexCore (strippedMac host_mac) = Except.error e := by
    rcases h with h | ⟨hws, hodd⟩
    · exact fromhexCore_error_of_badchar _ h
    · exact fromhexCore_error_of_odd _ hws hodd
  exact ⟨by simp [sentDatagrams, WakeOnLanMixin.wakeonlan, he],
    e, by simp [WakeOnLanMixin.wakeonlan, he]⟩

/-- C7 amended witness: the non-hex address "zz" is rejected and no
datagram is sent. -/
theorem C7_malformed_rejected_amended_witness :
    (∃ c ∈ strippedMac "zz", hexVal c = none ∧ isPyWhitespace c = false) ∧
    sentDatagrams (WakeOnLanMixin.wakeonlan "zz") = [] := by
  exact ⟨by decide, (C7_malformed_rejected_amended "zz" (Or.inl (by decide))).1⟩

/-- C8 counterexample: when `subprocess.run` raises (the ping binary is
missing), the exception passes straight through `ping` — the probe does
*not* resolve to `ok=false` — and it is only the caller
`update_state` that absorbs it, into UNKNOWN rather than FAILED. -/
theorem C8_ping_raises_counterexample :
    PingableMixin.ping (Except.error "FileNotFoundError: No such file or directory: ping")
        = Except.error "FileNotFoundError: No such file or directory: ping" ∧
      (PingableSystem.update_state
          (PingableMixin.ping
            (Except.error "FileNotFoundError: No such file or directory: ping"))
          (System.init "srv" "")).state = SystemState.UNKNOWN := by
  exact ⟨rfl, rfl⟩

/-- C8 amended: whenever the subprocess invocation returns a completed
process (e.g. the host is unresolvable and ping exits non-zero),
`ping` returns the structured `(ok, stdout, stderr)` result without
raising; but when `subprocess.run` itself raises (binary missing), the
exception propagates out of `ping` and is contained one level up by
`update_state`, which records UNKNOWN with the exception text. -/
theorem C8_ping_boundary_amended :
    ∀ (rc : Int) (out err e : String) (s : System),
      PingableMixin.ping (Except.ok ⟨rc, out, err⟩) = Except.ok (rc == 0, out, err) ∧
      PingableMixin.ping (Except.error e) = Except.error e ∧
      (PingableSystem.update_state (PingableMixin.ping (Except.error e)) s).state
        = SystemState.UNKNOWN ∧
      (PingableSystem.update_state (PingableMixin.ping (Except.error e)) s).state_verbose
        = "Exception: " ++ e := by
  intro rc out err e s
  exact ⟨rfl, rfl, rfl, rfl⟩

/-- C9: at the failing input — non-zero exit status with the exit
status ready before any output chunk was received — the f-string in
`ssh_exec` evaluates `"".decode()` on the *str* initial value and
raises an AttributeError whose message does not carry the exit code;
`Action.__call__` still emits the persistent warning and re-raises.
With at least one received chunk the raised message carries the exit
code and last chunk as the claim states, and exit status 0 returns
without raising. -/
theorem C9_ssh_exec_failing_input :
    SSHMixin.ssh_exec [] 1
        = Except.error "AttributeError: str object has no attribute decode" ∧
      Action.call (SSHMixin.ssh_exec [] 1) "Stop Server"
        = ([Notification.warning
              "Exception: AttributeError: str object has no attribute decode" true],
           Except.error "AttributeError: str object has no attribute decode") ∧
      SSHMixin.ssh_exec ["output"] 1
        = Except.error "Exit status is 1, last stdout: output" ∧
      SSHMixin.ssh_exec [] 0 = Except.ok () := by
  exact ⟨rfl, rfl, rfl, rfl⟩

/-- C10 counterexample: the `subprocess.run` invocation of the ping
probe passes no `timeout=` argument and its command line carries no
deadline flag (only `ping -c 1 <host>`), and the SSH `connect` passes
no timeout either — so not every network call inside a probe carries
its own short timeout. -/
theorem C10_no_probe_timeouts_counterexample :
    (ping_run_call false "192.0.2.1").timeout = none ∧
      (ping_run_call false "192.0.2.1").argv = ["ping", "-c", "1", "192.0.2.1"] ∧
      ssh_connect_timeout = none := by
  exact ⟨rfl, rfl, rfl⟩

/-- C10 amended: only the HTTP HEAD request carries an explicit timeout
(1.0 second); the ping subprocess invocation passes no timeout argument
and no `-W`/`-w` deadline flag on either platform, and the SSH connect
passes no timeout. -/
theorem C10_timeouts_amended :
    ∀ (is_windows : Bool) (host : String),
      (ping_run_call is_windows host).timeout = none ∧
      (host ≠ "-W" ∧ host ≠ "-w" →
        "-W" ∉ (ping_run_call is_windows host).argv ∧
        "-w" ∉ (ping_run_call is_windows host).argv) ∧
      http_head_timeout = 1 ∧
      ssh_connect_timeout = none := by
  intro is_windows host
  refine ⟨rfl, ?_, rfl, rfl⟩
  rintro ⟨h1, h2⟩
  cases is_windows <;> simp [ping_run_call, Ne.symm h1, Ne.symm h2]

/-- C10 amended witness: for the concrete host 192.0.2.1 on the
non-Windows branch, the ping command line carries no deadline flag. -/
theorem C10_timeouts_amended_witness :
    ((("192.0.2.1" : String) ≠ "-W") ∧ (("192.0.2.1" : String) ≠ "-w")) ∧
      "-W" ∉ (ping_run_call false "192.0.2.1").argv ∧
      "-w" ∉ (ping_run_call false "192.0.2.1").argv := by
  exact ⟨by decide, (C10_timeouts_amended false "192.0.2.1").2.1 (by decide)⟩

end Dashboard
